import Mathlib

set_option linter.unusedVariables false

/-!
Shallow embedding of the `git` plugin's repository-synchronization core:
the command runners of `commands.go` and the `Repo` state machine of the
main plugin file (`Git`, `Repo.Pull`, `Repo.pull`, `Repo.clone`,
`Repo.checkoutLatestTag`, `Repo.Prepare`, `Repo.originURL`, ...).

External process execution is modelled by an explicit oracle: an
`ExecState` carries the list of pending results the external tool will
produce (consumed one per invocation, in order) together with a trace of
every command issued so far, so that theorems can count or inspect the
external-tool invocations a call performs.  Wall-clock time is passed
explicitly as a natural number of seconds (`now`); `time.Since(lastPull)`
becomes `now - lastPull` (Go's negative-duration case coincides with
truncated natural subtraction for the `< 5s` test).  The filesystem reads
done by `Prepare` (`ioutil.ReadDir`, `os.Stat`, `os.MkdirAll`) are
modelled by an `FsEnv` record of their outcomes.
-/

namespace CoreDNSGit

/-- Result produced by one external process invocation: either the raw
standard output of a successful run, or a failure (binary missing or
non-zero exit) carrying an error message. -/
inductive CmdResult where
  | ok (output : String)
  | fail (msg : String)
deriving DecidableEq

/-- One external command invocation: executable name, arguments, working
directory (mirrors the arguments of `runCmd` / `runCmdOutput`). -/
structure Cmd where
  command : String
  args : List String
  dir : String
deriving DecidableEq

/-- State of the external world: the oracle of pending process results and
the trace of commands issued so far. -/
structure ExecState where
  oracle : List CmdResult
  trace : List Cmd
deriving DecidableEq

/-- Issue one external command: consume the next oracle result (an empty
oracle acts as a failing process) and append the command to the trace. -/
def issue (c : Cmd) (s : ExecState) : CmdResult × ExecState :=
  match s.oracle with
  | [] => (CmdResult.fail "command failed", { oracle := [], trace := s.trace ++ [c] })
  | r :: rs => (r, { oracle := rs, trace := s.trace ++ [c] })

/-- Model of `runCmd` (commands.go): start the process, wait for it, and
return a non-nil error exactly when it could not be started or exited
non-zero. -/
def runCmd (command : String) (args : List String) (dir : String) (s : ExecState) :
    Option String × ExecState :=
  let (res, s1) := issue { command := command, args := args, dir := dir } s
  match res with
  | CmdResult.ok _ => (none, s1)
  | CmdResult.fail m => (some m, s1)

/-- Drop leading whitespace characters from a character list. -/
def dropWhileSpace : List Char → List Char
  | [] => []
  | c :: cs => if c.isWhitespace then dropWhileSpace cs else c :: cs

/-- Model of `bytes.TrimSpace`: strip leading and trailing whitespace
(stated structurally so that concrete inputs evaluate in the kernel). -/
def trimSpace (s : String) : String :=
  String.mk (List.reverse (dropWhileSpace (List.reverse (dropWhileSpace s.data))))

/-- Model of `runCmdOutput` (commands.go).  The Go source declares
`var err error` and then writes `if output, err := cmd.Output(); err == nil`,
which shadows `err`; the final `return "", err` therefore returns the outer,
still-nil error even when `cmd.Output()` failed.  The embedding reproduces
that behaviour: the failure branch returns `("", none)`. -/
def runCmdOutput (command : String) (args : List String) (dir : String) (s : ExecState) :
    (String × Option String) × ExecState :=
  let (res, s1) := issue { command := command, args := args, dir := dir } s
  match res with
  | CmdResult.ok output => ((trimSpace output, none), s1)
  | CmdResult.fail _ => (("", none), s1)

/-- Number of retries if git pull fails (`numRetries`). -/
def numRetries : Nat := 3

/-- Sentinel branch value selecting tag-tracking mode (`latestTag`). -/
def latestTag : String := "{latest}"

/-- Model of the `Repo` struct: configuration fields plus the mutable
synchronization state (`pulled`, `lastPull`, `lastCommit`, `latestTag`).
`lastPull` is seconds since epoch; `0` models Go's zero `time.Time`. -/
structure Repo where
  url : String
  path : String
  branch : String
  interval : Nat
  cloneArgs : List String
  pullArgs : List String
  pulled : Bool
  lastPull : Nat
  lastCommit : String
  latestTag : String
deriving DecidableEq

/-- Model of `Git`, a list of repositories. -/
abbrev Git := List Repo

/-- Model of `Git.Repo(i)`.  Go's `if i < len(g) { return g[i] }` indexes
the slice with a possibly negative `i`; a negative index panics at runtime.
The outer `Option` records that: `none` models the panic, `some none`
models returning `nil`, `some (some r)` models returning the element. -/
def Git.Repo (g : Git) (i : Int) : Option (Option CoreDNSGit.Repo) :=
  if i < (List.length g : Int) then
    if h : 0 ≤ i ∧ i < (List.length g : Int) then
      some (some (g.get ⟨i.toNat, by omega⟩))
    else
      none
  else
    some none

/-- Model of `Repo.gitCmd`: run `git` with the given parameters. -/
def Repo.gitCmd (r : Repo) (params : List String) (dir : String) (s : ExecState) :
    Option String × ExecState :=
  runCmd "git" params dir s

/-- Model of `Repo.mostRecentCommit`: `git --no-pager log -n 1
--pretty=format:"%H"` through `runCmdOutput` (the constant command string
always splits successfully). -/
def Repo.mostRecentCommit (r : Repo) (s : ExecState) : (String × Option String) × ExecState :=
  runCmdOutput "git" ["--no-pager", "log", "-n", "1", "--pretty=format:\"%H\""] r.path s

/-- Model of `Repo.fetchLatestTag`: fetch remote tags with `runCmd`, then
resolve the most recent tag with `runCmdOutput`. -/
def Repo.fetchLatestTag (r : Repo) (s : ExecState) : (String × Option String) × ExecState :=
  let (e, s1) := r.gitCmd ["fetch", "origin", "--tags"] r.path s
  match e with
  | some m => (("", some m), s1)
  | none => runCmdOutput "git" ["describe", "origin", "--abbrev=0", "--tags"] r.path s1

/-- Model of `Repo.checkoutLatestTag`: resolve the latest remote tag;
empty means "no tags found" (an error); equal to the recorded tag means
no-op; otherwise check the tag out and record tag and commit hash.
After a successful checkout the Go code reassigns `err` from
`mostRecentCommit` but then falls through to `return nil`, so that error
is dropped. -/
def Repo.checkoutLatestTag (r : Repo) (s : ExecState) : (Repo × Option String) × ExecState :=
  let ((tag, e), s1) := r.fetchLatestTag s
  match e with
  | some m => ((r, some m), s1)
  | none =>
    if tag == "" then
      ((r, some ("no tags found for repo: " ++ r.url)), s1)
    else if tag == r.latestTag then
      ((r, none), s1)
    else
      let (e2, s2) := r.gitCmd ["checkout", "tags/" ++ tag] r.path s1
      match e2 with
      | some m => ((r, some m), s2)
      | none =>
        let ((c, _e3), s3) := Repo.mostRecentCommit r s2
        (({ r with latestTag := tag, lastCommit := c }, none), s3)

/-- Model of `Repo.checkoutCommit`: check out an arbitrary commit hash;
touches no recorded synchronization state. -/
def Repo.checkoutCommit (r : Repo) (commitHash : String) (s : ExecState) :
    Option String × ExecState :=
  r.gitCmd ["checkout", commitHash] r.path s

/-- Model of `Repo.clone`.  In tag mode the `-b` flag is omitted and the
latest tag is checked out afterwards; the Go code writes
`if err := r.checkoutLatestTag(); err != nil { log }` which shadows `err`,
so the following `return err` returns the outer error (the one from
`mostRecentCommit`), silently dropping a tag-resolution failure. -/
def Repo.clone (r : Repo) (now : Nat) (s : ExecState) : (Repo × Option String) × ExecState :=
  let tagMode : Bool := r.branch == CoreDNSGit.latestTag
  let params : List String :=
    if tagMode then "clone" :: (r.cloneArgs ++ [r.url, r.path])
    else "clone" :: "-b" :: r.branch :: (r.cloneArgs ++ [r.url, r.path])
  let (e, s1) := r.gitCmd params "" s
  match e with
  | some m => ((r, some m), s1)
  | none =>
    let r1 : Repo := { r with pulled := true, lastPull := now }
    let ((c, e2), s2) := r1.mostRecentCommit s1
    let r2 : Repo := { r1 with lastCommit := c }
    if tagMode then
      let ((r3, _tagErr), s3) := r2.checkoutLatestTag s2
      ((r3, e2), s3)
    else
      ((r2, e2), s2)

/-- Model of the lowercase `Repo.pull`: clone if never pulled, otherwise
tag checkout in tag mode, otherwise `git pull origin <branch>` followed by
recording the pull time and the most recent commit hash. -/
def Repo.pull (r : Repo) (now : Nat) (s : ExecState) : (Repo × Option String) × ExecState :=
  if !r.pulled then
    r.clone now s
  else if r.branch == CoreDNSGit.latestTag then
    r.checkoutLatestTag s
  else
    let params := "pull" :: (r.pullArgs ++ ["origin", r.branch])
    let (e, s1) := r.gitCmd params r.path s
    match e with
    | some m => ((r, some m), s1)
    | none =>
      let r1 : Repo := { r with pulled := true, lastPull := now }
      let ((c, e2), s2) := r1.mostRecentCommit s1
      (({ r1 with lastCommit := c }, e2), s2)

/-- Model of the retry loop inside `Repo.Pull`: attempt `Repo.pull` up to
`fuel` times, stopping at the first success, and return the last error if
every attempt failed (with `fuel = 0` the Go loop body never runs and the
nil error is returned). -/
def Repo.pullLoop (fuel : Nat) (r : Repo) (now : Nat) (s : ExecState) :
    (Repo × Option String) × ExecState :=
  match fuel with
  | 0 => ((r, none), s)
  | Nat.succ n =>
    let ((r1, e), s1) := r.pull now s
    match e with
    | none => ((r1, none), s1)
    | some m =>
      match n with
      | 0 => ((r1, some m), s1)
      | Nat.succ k => Repo.pullLoop (Nat.succ k) r1 now s1

/-- Model of the exported `Repo.Pull`: debounce (return nil if the last
successful pull was less than 5 seconds ago), then retry `Repo.pull` up to
`numRetries` times; on total failure return the last error; on success the
commit-hash comparison is only informational logging. -/
def Repo.Pull (r : Repo) (now : Nat) (s : ExecState) : (Repo × Option String) × ExecState :=
  if now - r.lastPull < 5 then
    ((r, none), s)
  else
    let lastCommit := r.lastCommit
    let ((r1, e), s1) := Repo.pullLoop numRetries r now s
    match e with
    | some m => ((r1, some m), s1)
    | none =>
      ((r1, none), s1)

/-- Model of `strings.TrimSuffix`: drop the suffix when present (stated
structurally over the character list so concrete inputs evaluate in the
kernel; a longer suffix than the string never compares equal, matching
`strings.HasSuffix`). -/
def trimSuffix (s suffix : String) : String :=
  if s.data.drop (s.data.length - suffix.data.length) == suffix.data then
    String.mk (s.data.take (s.data.length - suffix.data.length))
  else s

/-- Model of one `os.FileInfo` entry returned by `ioutil.ReadDir`. -/
structure DirEntry where
  name : String
  isDir : Bool
deriving DecidableEq

/-- Outcomes of the filesystem operations `Repo.Prepare` and
`Repo.originURL` perform: the directory listing of the repository path
(`none` models a `ReadDir` error), whether `os.Stat` on the path succeeds,
and whether `os.MkdirAll` would succeed. -/
structure FsEnv where
  readDir : Option (List DirEntry)
  statOk : Bool
  mkdirOk : Bool
deriving DecidableEq

/-- Result of `Repo.Prepare`: the repository state after the call, the
returned error, and whether `os.MkdirAll` was invoked (the only mutating
filesystem operation `Prepare` can perform). -/
structure PrepareResult where
  repo : Repo
  err : Option String
  mkdirCalled : Bool
deriving DecidableEq

/-- Model of `Repo.originURL`: `os.Stat` on the path, then
`git config --get remote.origin.url` through `runCmdOutput`. -/
def Repo.originURL (r : Repo) (statOk : Bool) (s : ExecState) :
    (String × Option String) × ExecState :=
  if !statOk then
    (("", some ("stat " ++ r.path ++ ": error")), s)
  else
    runCmdOutput "git" ["config", "--get", "remote.origin.url"] r.path s

/-- Model of `Repo.Prepare`: create the directory when missing or empty;
when non-empty, accept an existing working copy of the same origin
(trailing ".git" ignored on both sides) by marking the repository pulled,
and fail without mutating anything otherwise. -/
def Repo.Prepare (r : Repo) (fs : FsEnv) (s : ExecState) : PrepareResult × ExecState :=
  let mkdirResult : PrepareResult :=
    { repo := r
      err := if fs.mkdirOk then none else some ("mkdir " ++ r.path ++ ": error")
      mkdirCalled := true }
  match fs.readDir with
  | none => (mkdirResult, s)
  | some entries =>
    if entries.isEmpty then (mkdirResult, s)
    else
      let isGit := entries.any (fun f => f.isDir && f.name == ".git")
      if isGit then
        let ((repoURL, e), s1) := r.originURL fs.statOk s
        match e with
        | none =>
          if trimSuffix repoURL ".git" == trimSuffix r.url ".git" then
            ({ repo := { r with pulled := true }, err := none, mkdirCalled := false }, s1)
          else
            ({ repo := r
               err := some ("another git repo " ++ repoURL ++ " exists at " ++ r.path)
               mkdirCalled := false }, s1)
        | some m =>
          ({ repo := r
             err := some ("cannot retrieve repo url for " ++ r.path ++ ": " ++ m)
             mkdirCalled := false }, s1)
      else
        ({ repo := r
           err := some ("cannot git clone into " ++ r.path ++ ", directory not empty")
           mkdirCalled := false }, s)

/-- Predicate picking out checkout invocations in a command trace. -/
def isCheckout (c : Cmd) : Bool := c.args.head? == some "checkout"

/-- Predicate picking out clone invocations in a command trace. -/
def isClone (c : Cmd) : Bool := c.args.head? == some "clone"

/-- Trimmed output the capture runner would produce for the next pending
oracle entry (empty when the entry is a failure or the oracle is dry). -/
def headOutput : List CmdResult → String
  | CmdResult.ok o :: _ => trimSpace o
  | _ => ""

/-- Sample branch-tracking repository used to exercise the model at
concrete inputs. -/
def sampleRepo : Repo :=
  { url := "host/org/zones", path := "/zones", branch := "main", interval := 60,
    cloneArgs := [], pullArgs := [], pulled := false, lastPull := 0,
    lastCommit := "", latestTag := "" }

/-- Sample already-initialized tag-tracking repository. -/
def sampleTagRepo : Repo :=
  { sampleRepo with branch := "{latest}", pulled := true }

/-- Execution state whose next three commands fail. -/
def threeFailures : ExecState :=
  { oracle := [CmdResult.fail "e1", CmdResult.fail "e2", CmdResult.fail "e3"], trace := [] }

/-- Command issued by `fetchLatestTag` to fetch remote tag refs. -/
def fetchCmd (r : Repo) : Cmd :=
  { command := "git", args := ["fetch", "origin", "--tags"], dir := r.path }

/-- Command issued by `fetchLatestTag` to resolve the latest tag. -/
def describeCmd (r : Repo) : Cmd :=
  { command := "git", args := ["describe", "origin", "--abbrev=0", "--tags"], dir := r.path }

/-- Command issued by `checkoutLatestTag` to check out a tag. -/
def checkoutTagCmd (r : Repo) (tag : String) : Cmd :=
  { command := "git", args := ["checkout", "tags/" ++ tag], dir := r.path }

/-- Command issued by `mostRecentCommit`. -/
def logCmd (r : Repo) : Cmd :=
  { command := "git", args := ["--no-pager", "log", "-n", "1", "--pretty=format:\"%H\""],
    dir := r.path }

/-- Command issued by the branch-mode `Repo.pull`. -/
def pullCmd (r : Repo) : Cmd :=
  { command := "git", args := "pull" :: (r.pullArgs ++ ["origin", r.branch]), dir := r.path }

/-- Tag-tracking repository that has never been cloned. -/
def sampleFreshTagRepo : Repo := { sampleRepo with branch := "{latest}" }

/-- Oracle for a successful clone of a remote that has no tags: clone ok,
commit-hash read ok, tag fetch ok, tag resolution finds nothing. -/
def cloneNoTags : ExecState :=
  { oracle := [CmdResult.ok "", CmdResult.ok "abc", CmdResult.ok "", CmdResult.ok ""],
    trace := [] }

/-- Oracle for three initialized tag-mode attempts that each find no
tags: three (fetch ok, describe empty) rounds. -/
def sixNoTagRounds : ExecState :=
  { oracle := [CmdResult.ok "", CmdResult.ok "", CmdResult.ok "", CmdResult.ok "",
               CmdResult.ok "", CmdResult.ok ""],
    trace := [] }

/-- Oracle for the two-call tag-tracking scenario: first call consumes
fetch, describe (tag v1), checkout, log; the second call consumes fetch
and describe reporting the same tag. -/
def tagScenario : ExecState :=
  { oracle := [CmdResult.ok "x", CmdResult.ok "v1", CmdResult.ok "y", CmdResult.ok "h1",
               CmdResult.ok "z", CmdResult.ok "v1"],
    trace := [] }

/-- Filesystem outcomes for a path holding a working copy (a `.git`
directory entry is present). -/
def sampleFsGit : FsEnv :=
  { readDir := some [{ name := ".git", isDir := true }], statOk := true, mkdirOk := true }

/-- Filesystem outcomes for a non-empty path that is not a working copy. -/
def sampleFsNonRepo : FsEnv :=
  { readDir := some [{ name := "zones.txt", isDir := false }], statOk := true,
    mkdirOk := true }

/-- Oracle whose next command reports an origin URL matching
`sampleRepo`'s remote up to a trailing ".git". -/
def originMatches : ExecState :=
  { oracle := [CmdResult.ok "host/org/zones.git"], trace := [] }

/-- Oracle whose next command reports a different origin URL. -/
def originDiffers : ExecState :=
  { oracle := [CmdResult.ok "host/other/repo"], trace := [] }

/-- Helper: `runCmdOutput` never reports an error, whatever the process
does — the effect of the shadowed `err` in its Go source. -/
theorem runCmdOutput_err_none (command : String) (args : List String) (dir : String)
    (s : ExecState) : ((runCmdOutput command args dir s).1).2 = none := by
  cases hs : s.oracle with
  | nil => simp [runCmdOutput, issue, hs]
  | cons c rest => cases c <;> simp [runCmdOutput, issue, hs]

/-- Helper: `mostRecentCommit` never reports an error. -/
theorem mostRecentCommit_err_none (r : Repo) (s : ExecState) :
    ((r.mostRecentCommit s).1).2 = none := by
  simp [Repo.mostRecentCommit, runCmdOutput_err_none]

/-- Helper: a failing `checkoutLatestTag` leaves the repository record
unchanged. -/
theorem checkoutLatestTag_fail_frozen (r : Repo) (s : ExecState) {r' : Repo} {m : String}
    {s' : ExecState} (h : r.checkoutLatestTag s = ((r', some m), s')) : r' = r := by
  rcases hf : r.fetchLatestTag s with ⟨⟨tag, e⟩, s1⟩
  unfold Repo.checkoutLatestTag at h
  rw [hf] at h
  cases e with
  | some m0 =>
    simp only [Prod.mk.injEq] at h
    exact h.1.1.symm
  | none =>
    simp only at h
    split at h
    · simp only [Prod.mk.injEq] at h
      exact h.1.1.symm
    · split at h
      · simp at h
      · rcases hc : r.gitCmd ["checkout", "tags/" ++ tag] r.path s1 with ⟨e2, s2⟩
        rw [hc] at h
        cases e2 with
        | some m1 =>
          simp only [Prod.mk.injEq] at h
          exact h.1.1.symm
        | none =>
          rcases hm : Repo.mostRecentCommit r s2 with ⟨⟨c, e3⟩, s3⟩
          rw [hm] at h
          simp at h

/-- Helper: a failing `clone` leaves the repository record unchanged
(a clone attempt can only fail at the `git clone` invocation itself,
because `mostRecentCommit` never reports an error and a tag-resolution
failure after a successful clone is dropped). -/
theorem clone_fail_frozen (r : Repo) (now : Nat) (s : ExecState) {r' : Repo} {m : String}
    {s' : ExecState} (h : r.clone now s = ((r', some m), s')) : r' = r := by
  simp only [Repo.clone] at h
  split at h
  · simp only [Prod.mk.injEq] at h
    exact h.1.1.symm
  · split at h
    · simp only [Prod.mk.injEq, mostRecentCommit_err_none] at h
      exact Option.noConfusion h.1.2
    · simp only [Prod.mk.injEq, mostRecentCommit_err_none] at h
      exact Option.noConfusion h.1.2

/-- Helper: a failing single attempt (`Repo.pull`) leaves the repository
record unchanged. -/
theorem pull_fail_frozen (r : Repo) (now : Nat) (s : ExecState) {r' : Repo} {m : String}
    {s' : ExecState} (h : r.pull now s = ((r', some m), s')) : r' = r := by
  simp only [Repo.pull] at h
  split at h
  · exact clone_fail_frozen r now s h
  · split at h
    · exact checkoutLatestTag_fail_frozen r s h
    · split at h
      · simp only [Prod.mk.injEq] at h
        exact h.1.1.symm
      · simp only [Prod.mk.injEq, mostRecentCommit_err_none] at h
        exact Option.noConfusion h.1.2

/-- Helper: when every attempt of the retry loop fails, the repository
record is unchanged. -/
theorem pullLoop_fail_frozen (fuel : Nat) (r : Repo) (now : Nat) (s : ExecState) {r' : Repo}
    {m : String} {s' : ExecState}
    (h : Repo.pullLoop fuel r now s = ((r', some m), s')) : r' = r := by
  induction fuel generalizing r s with
  | zero =>
    rw [Repo.pullLoop] at h
    simp at h
  | succ n ih =>
    rw [Repo.pullLoop] at h
    rcases hp : r.pull now s with ⟨⟨r1, e⟩, s1⟩
    rw [hp] at h
    cases e with
    | none => simp at h
    | some m0 =>
      simp only at h
      cases n with
      | zero =>
        simp only [Prod.mk.injEq] at h
        rw [h.1.1.symm]
        exact pull_fail_frozen r now s hp
      | succ k =>
        have h1 : r' = r1 := ih r1 s1 h
        rw [h1]
        exact pull_fail_frozen r now s hp

/-- Helper: a `Repo.Pull` call that returns an error leaves the
repository record unchanged. -/
theorem Pull_fail_frozen (r : Repo) (now : Nat) (s : ExecState) {r' : Repo} {m : String}
    {s' : ExecState} (h : Repo.Pull r now s = ((r', some m), s')) : r' = r := by
  simp only [Repo.Pull] at h
  split at h
  · simp at h
  · rcases hl : Repo.pullLoop numRetries r now s with ⟨⟨r1, e⟩, s1⟩
    rw [hl] at h
    cases e with
    | none => simp at h
    | some m0 =>
      simp only [Prod.mk.injEq] at h
      rw [← h.1.1]
      exact pullLoop_fail_frozen numRetries r now s hl

/-- C2: if a single `Pull()` call fails all of its bounded retry attempts
and returns the last error, every piece of recorded state — the `pulled`
flag, the last-pull timestamp, the last commit hash and the latest-tag
name (the whole repository record) — is exactly as it was before the
call began. -/
theorem C2_pull_total_failure_state_unchanged (r : Repo) (now : Nat) (s : ExecState)
    (m : String) (h : ((Repo.Pull r now s).1).2 = some m) :
    ((Repo.Pull r now s).1).1 = r := by
  have hp : Repo.Pull r now s
      = (((Repo.Pull r now s).1.1, some m), (Repo.Pull r now s).2) := by
    rw [← h]
  exact Pull_fail_frozen r now s hp

/-- Witness for C2: a repository whose three clone attempts all fail gets
its state back untouched. -/
theorem C2_pull_total_failure_state_unchanged_witness :
    ((Repo.Pull sampleRepo 100 threeFailures).1).1 = sampleRepo :=
  C2_pull_total_failure_state_unchanged sampleRepo 100 threeFailures "e3" (by decide)

/-- C5: the last-pull timestamp only advances on success — a failing
attempt (`Repo.pull`) and a failing synchronization call (`Repo.Pull`)
both leave `lastPull` unchanged, so any operation that advances it is one
that returned success to its caller. -/
theorem C5_lastPull_advances_only_on_success (r : Repo) (now : Nat) (s : ExecState) :
    (∀ m, ((r.pull now s).1).2 = some m → (((r.pull now s).1).1).lastPull = r.lastPull)
    ∧ (∀ m, ((Repo.Pull r now s).1).2 = some m →
        (((Repo.Pull r now s).1).1).lastPull = r.lastPull) := by
  constructor
  · intro m h
    have hp : r.pull now s
        = (((r.pull now s).1.1, some m), (r.pull now s).2) := by
      rw [← h]
    rw [pull_fail_frozen r now s hp]
  · intro m h
    have hp : Repo.Pull r now s
        = (((Repo.Pull r now s).1.1, some m), (Repo.Pull r now s).2) := by
      rw [← h]
    rw [Pull_fail_frozen r now s hp]

/-- Witness for C5 at a concrete failing input. -/
theorem C5_lastPull_advances_only_on_success_witness :
    (((Repo.Pull sampleRepo 100 threeFailures).1).1).lastPull = sampleRepo.lastPull :=
  (C5_lastPull_advances_only_on_success sampleRepo 100 threeFailures).2 "e3" (by decide)

/-- C1: evaluating the capture-mode runner at a failing process shows it
returns an empty string and a NIL error (the outer `err` shadowed by
`output, err := cmd.Output()`), contradicting the claim that it fails
with a non-nil ExecutionError whenever the binary cannot be started or
the process exits non-zero; on success it does return the trimmed output
and nil. -/
theorem C1_runCmdOutput_failure_returns_nil_error :
    ((runCmdOutput "git" ["pull"] "/zones"
        { oracle := [CmdResult.fail "exit status 1"], trace := [] }).1 = ("", none))
    ∧ ((runCmdOutput "git" ["pull"] "/zones"
        { oracle := [CmdResult.ok "  abc123  "], trace := [] }).1 = ("abc123", none)) := by
  constructor
  · rfl
  · decide

/-- C3 counterexample: two `Pull()` calls one second apart (at times 100
and 101 on a repository never successfully pulled) where the second call
invokes the external tool three more times and returns an error — the
second of two calls within 5 seconds of each other is neither silent nor
successful. -/
theorem C3_counterexample :
    (((Repo.Pull ((Repo.Pull sampleRepo 100 threeFailures).1.1) 101
        ((Repo.Pull sampleRepo 100 threeFailures).2)).1.2).isSome = true)
    ∧ (((Repo.Pull ((Repo.Pull sampleRepo 100 threeFailures).1.1) 101
        ((Repo.Pull sampleRepo 100 threeFailures).2)).2).trace.length
      = ((Repo.Pull sampleRepo 100 threeFailures).2).trace.length + 3) := by
  decide

/-- C3 (amended): whenever the time elapsed since the recorded last-pull
timestamp (set by the last successful timestamp-updating pull) is below
the 5-second quiescence window, `Pull()` returns nil immediately, leaves
the repository record unchanged and issues no external command. -/
theorem C3_debounce_skips_external_commands (r : Repo) (now : Nat) (s : ExecState)
    (h : now - r.lastPull < 5) : Repo.Pull r now s = ((r, none), s) := by
  simp [Repo.Pull, h]

/-- Witness for the amended C3: a pull 2 seconds after the recorded last
pull is a silent success. -/
theorem C3_debounce_skips_external_commands_witness :
    Repo.Pull { sampleRepo with lastPull := 98, pulled := true } 100
        { oracle := [], trace := [] }
      = (({ sampleRepo with lastPull := 98, pulled := true }, none),
         { oracle := [], trace := [] }) :=
  C3_debounce_skips_external_commands
    { sampleRepo with lastPull := 98, pulled := true } 100
    { oracle := [], trace := [] } (by decide)

/-- C10 counterexample: at index `-1` on a one-element list `Git.Repo`
passes the `i < len(g)` guard and indexes the slice with a negative
index, which panics (modelled by `none`) instead of returning `nil`. -/
theorem C10_counterexample : Git.Repo [sampleRepo] (-1) = none := by
  rfl

/-- C10 (amended): `Git.Repo g i` returns the repository at position `i`
when `0 ≤ i < len(g)`, returns `nil` when `i ≥ len(g)`, but panics with
an out-of-range slice index for every negative `i` (the guard only
checks the upper bound). -/
theorem C10_gitRepo_total_amended (g : Git) (i : Int) :
    (0 ≤ i ∧ i < (List.length g : Int) → Git.Repo g i = some (g[i.toNat]?))
    ∧ ((List.length g : Int) ≤ i → Git.Repo g i = some none)
    ∧ (i < 0 → Git.Repo g i = none) := by
  refine ⟨?_, ?_, ?_⟩
  · rintro ⟨h0, h1⟩
    have hn : i.toNat < g.length := by omega
    simp only [Git.Repo, if_pos h1, dif_pos (And.intro h0 h1)]
    rw [List.getElem?_eq_getElem hn]
    rfl
  · intro h
    have h1 : ¬(i < (List.length g : Int)) := by omega
    simp [Git.Repo, h1]
  · intro h
    have h1 : i < (List.length g : Int) := by omega
    have h2 : ¬(0 ≤ i ∧ i < (List.length g : Int)) := by omega
    simp [Git.Repo, h1, h2]
    omega

/-- Witness for the amended C10 at index 0 of a one-element list. -/
theorem C10_gitRepo_total_amended_witness :
    Git.Repo [sampleRepo] 0 = some (([sampleRepo] : Git)[(0 : Int).toNat]?) :=
  (C10_gitRepo_total_amended [sampleRepo] 0).1 (by decide)

/-- Helper: trimming the empty output yields the empty string. -/
theorem trimSpace_empty : trimSpace "" = "" := rfl

/-- Helper: when the tag fetch succeeds and tag resolution produces an
empty string (no tags), `checkoutLatestTag` fails with the "no tags
found" error, consumes exactly the fetch and describe commands, and
leaves the repository unchanged. -/
theorem checkoutLatestTag_no_tags (r : Repo) (s : ExecState) (a : String)
    (rest : List CmdResult)
    (hs : s.oracle = CmdResult.ok a :: CmdResult.ok "" :: rest) :
    r.checkoutLatestTag s
      = ((r, some ("no tags found for repo: " ++ r.url)),
         { oracle := rest, trace := s.trace ++ [fetchCmd r, describeCmd r] }) := by
  simp [Repo.checkoutLatestTag, Repo.fetchLatestTag, Repo.gitCmd, runCmd, runCmdOutput,
        issue, hs, trimSpace_empty, fetchCmd, describeCmd]

/-- Helper: on an initialized tag-tracking repository a single attempt is
exactly the latest-tag checkout. -/
theorem pull_tagMode (r : Repo) (now : Nat) (s : ExecState) (hp : r.pulled = true)
    (hb : r.branch = "{latest}") :
    r.pull now s = r.checkoutLatestTag s := by
  simp [Repo.pull, hp, hb, latestTag]

/-- C4 counterexample: on the initial clone path of a tag-tracking
repository whose remote has no tags, the clone succeeds, tag resolution
fails — and `Pull()` still returns success (nil), because `clone` shadows
the error of `checkoutLatestTag` and returns the outer (nil) error; no
tag is recorded.  The TagResolutionError is NOT surfaced to the caller on
this path, refuting the claim's "holds ... on the initial clone path". -/
theorem C4_counterexample :
    ((Repo.Pull sampleFreshTagRepo 100 cloneNoTags).1).2 = none
    ∧ (((Repo.Pull sampleFreshTagRepo 100 cloneNoTags).1).1).latestTag = "" := by
  decide

/-- C4 (amended): on an already-initialized tag-tracking repository, when
tag resolution finds no tags, every retry attempt fails and `Pull()`
surfaces the TagResolutionError ("no tags found for repo: ...") to the
caller, leaving the repository record unchanged; on the initial clone
path the same condition is only logged and the call succeeds. -/
theorem C4_no_tags_error_surfaced_when_initialized (r : Repo) (now : Nat) (s : ExecState)
    (a b c : String) (rest : List CmdResult)
    (hp : r.pulled = true) (hb : r.branch = "{latest}")
    (hs : s.oracle = [CmdResult.ok a, CmdResult.ok "", CmdResult.ok b, CmdResult.ok "",
                      CmdResult.ok c, CmdResult.ok ""] ++ rest)
    (hd : ¬ (now - r.lastPull < 5)) :
    ((Repo.Pull r now s).1).2 = some ("no tags found for repo: " ++ r.url)
    ∧ ((Repo.Pull r now s).1).1 = r := by
  have a1 : r.pull now s
      = ((r, some ("no tags found for repo: " ++ r.url)),
         { oracle := [CmdResult.ok b, CmdResult.ok "", CmdResult.ok c, CmdResult.ok ""] ++ rest,
           trace := s.trace ++ [fetchCmd r, describeCmd r] }) := by
    rw [pull_tagMode r now s hp hb]
    exact checkoutLatestTag_no_tags r s a _ hs
  have a2 : r.pull now
        { oracle := [CmdResult.ok b, CmdResult.ok "", CmdResult.ok c, CmdResult.ok ""] ++ rest,
          trace := s.trace ++ [fetchCmd r, describeCmd r] }
      = ((r, some ("no tags found for repo: " ++ r.url)),
         { oracle := [CmdResult.ok c, CmdResult.ok ""] ++ rest,
           trace := (s.trace ++ [fetchCmd r, describeCmd r])
             ++ [fetchCmd r, describeCmd r] }) := by
    rw [pull_tagMode r now _ hp hb]
    exact checkoutLatestTag_no_tags r _ b _ rfl
  have a3 : r.pull now
        { oracle := [CmdResult.ok c, CmdResult.ok ""] ++ rest,
          trace := (s.trace ++ [fetchCmd r, describeCmd r]) ++ [fetchCmd r, describeCmd r] }
      = ((r, some ("no tags found for repo: " ++ r.url)),
         { oracle := rest,
           trace := ((s.trace ++ [fetchCmd r, describeCmd r]) ++ [fetchCmd r, describeCmd r])
             ++ [fetchCmd r, describeCmd r] }) := by
    rw [pull_tagMode r now _ hp hb]
    exact checkoutLatestTag_no_tags r _ c _ rfl
  have L : Repo.pullLoop numRetries r now s
      = ((r, some ("no tags found for repo: " ++ r.url)),
         { oracle := rest,
           trace := ((s.trace ++ [fetchCmd r, describeCmd r]) ++ [fetchCmd r, describeCmd r])
             ++ [fetchCmd r, describeCmd r] }) := by
    show Repo.pullLoop (Nat.succ (Nat.succ (Nat.succ 0))) r now s = _
    simp only [Repo.pullLoop, a1, a2, a3]
  have P : Repo.Pull r now s
      = ((r, some ("no tags found for repo: " ++ r.url)),
         { oracle := rest,
           trace := ((s.trace ++ [fetchCmd r, describeCmd r]) ++ [fetchCmd r, describeCmd r])
             ++ [fetchCmd r, describeCmd r] }) := by
    simp only [Repo.Pull, if_neg hd, L]
  refine ⟨?_, ?_⟩ <;> rw [P]

/-- Witness for the amended C4 at a concrete initialized tag-mode
repository with an empty-tag remote. -/
theorem C4_no_tags_error_surfaced_when_initialized_witness :
    ((Repo.Pull sampleTagRepo 100 sixNoTagRounds).1).2
      = some ("no tags found for repo: " ++ sampleTagRepo.url)
    ∧ ((Repo.Pull sampleTagRepo 100 sixNoTagRounds).1).1 = sampleTagRepo :=
  C4_no_tags_error_surfaced_when_initialized sampleTagRepo 100 sixNoTagRounds
    "" "" "" [] rfl rfl rfl (by decide)

/-- Helper: evaluation of a branch-mode attempt whose `git pull` fails. -/
theorem pull_branch_fail (r : Repo) (now : Nat) (s : ExecState) (m : String)
    (crs : List CmdResult) (hp : r.pulled = true) (hbr : (r.branch == latestTag) = false)
    (ho : s.oracle = CmdResult.fail m :: crs) :
    r.pull now s = ((r, some m), { oracle := crs, trace := s.trace ++ [pullCmd r] }) := by
  simp [Repo.pull, hp, hbr, Repo.gitCmd, runCmd, issue, ho, pullCmd]

/-- Helper: evaluation of a branch-mode attempt on a dry oracle (the
process fails). -/
theorem pull_branch_dry (r : Repo) (now : Nat) (s : ExecState)
    (hp : r.pulled = true) (hbr : (r.branch == latestTag) = false)
    (ho : s.oracle = []) :
    r.pull now s
      = ((r, some "command failed"), { oracle := [], trace := s.trace ++ [pullCmd r] }) := by
  simp [Repo.pull, hp, hbr, Repo.gitCmd, runCmd, issue, ho, pullCmd]

/-- Helper: evaluation of a successful branch-mode attempt: the pull
command runs, `pulled` and `lastPull` are set and the commit hash read
(never an error) is recorded. -/
theorem pull_branch_ok (r : Repo) (now : Nat) (s : ExecState) (o : String)
    (crs : List CmdResult) (hp : r.pulled = true) (hbr : (r.branch == latestTag) = false)
    (ho : s.oracle = CmdResult.ok o :: crs) :
    r.pull now s
      = (({ r with pulled := true, lastPull := now, lastCommit := headOutput crs }, none),
         { oracle := crs.tail, trace := (s.trace ++ [pullCmd r]) ++ [logCmd r] }) := by
  cases crs with
  | nil =>
    simp [Repo.pull, hp, hbr, Repo.gitCmd, runCmd, issue, ho, Repo.mostRecentCommit,
          runCmdOutput, pullCmd, logCmd, headOutput]
  | cons c2 c2s =>
    cases c2 <;>
      simp [Repo.pull, hp, hbr, Repo.gitCmd, runCmd, issue, ho, Repo.mostRecentCommit,
            runCmdOutput, pullCmd, logCmd, headOutput]

/-- Helper: a `Pull()` whose first attempt succeeds returns that
attempt's result. -/
theorem Pull_first_attempt_ok (r : Repo) (now : Nat) (s : ExecState) (r1 : Repo)
    (s1 : ExecState) (hd : ¬ (now - r.lastPull < 5))
    (h1 : r.pull now s = ((r1, none), s1)) :
    Repo.Pull r now s = ((r1, none), s1) := by
  have L : Repo.pullLoop numRetries r now s = ((r1, none), s1) := by
    show Repo.pullLoop (Nat.succ (Nat.succ (Nat.succ 0))) r now s = _
    simp only [Repo.pullLoop, h1]
  simp only [Repo.Pull, if_neg hd, L]

/-- Helper: when the resolved tag equals the recorded tag, the
convergence step succeeds without a checkout and without mutating the
repository. -/
theorem checkoutLatestTag_noop (r : Repo) (s : ExecState) (a t : String)
    (rest : List CmdResult)
    (hs : s.oracle = CmdResult.ok a :: CmdResult.ok t :: rest)
    (ht : (trimSpace t == "") = false)
    (heq : (trimSpace t == r.latestTag) = true) :
    r.checkoutLatestTag s
      = ((r, none), { oracle := rest, trace := s.trace ++ [fetchCmd r, describeCmd r] }) := by
  simp [Repo.checkoutLatestTag, Repo.fetchLatestTag, Repo.gitCmd, runCmd, runCmdOutput,
        issue, hs, ht, heq, fetchCmd, describeCmd]

/-- Helper: when the resolved tag is new, the convergence step checks it
out, records it together with the commit hash, and succeeds. -/
theorem checkoutLatestTag_new_tag (r : Repo) (s : ExecState) (a t b c : String)
    (rest : List CmdResult)
    (hs : s.oracle
      = CmdResult.ok a :: CmdResult.ok t :: CmdResult.ok b :: CmdResult.ok c :: rest)
    (ht : (trimSpace t == "") = false)
    (hneq : (trimSpace t == r.latestTag) = false) :
    r.checkoutLatestTag s
      = (({ r with latestTag := trimSpace t, lastCommit := trimSpace c }, none),
         { oracle := rest,
           trace := s.trace ++ [fetchCmd r, describeCmd r,
             checkoutTagCmd r (trimSpace t), logCmd r] }) := by
  simp [Repo.checkoutLatestTag, Repo.fetchLatestTag, Repo.gitCmd, runCmd, runCmdOutput,
        issue, hs, ht, hneq, Repo.mostRecentCommit, fetchCmd, describeCmd, checkoutTagCmd,
        logCmd]

/-- Helper: a full `Pull()` on an initialized tag-mode repository whose
remote tag equals the recorded one is a silent success issuing only the
fetch and describe commands. -/
theorem Pull_tag_noop (r1 : Repo) (t2 : Nat) (s1 : ExecState) (d t : String)
    (rest : List CmdResult)
    (hp1 : r1.pulled = true) (hb1 : r1.branch = "{latest}")
    (ho1 : s1.oracle = CmdResult.ok d :: CmdResult.ok t :: rest)
    (ht : (trimSpace t == "") = false)
    (heq : (trimSpace t == r1.latestTag) = true)
    (hd2 : ¬ (t2 - r1.lastPull < 5)) :
    Repo.Pull r1 t2 s1
      = ((r1, none),
         { oracle := rest, trace := s1.trace ++ [fetchCmd r1, describeCmd r1] }) := by
  refine Pull_first_attempt_ok r1 t2 s1 r1 _ hd2 ?_
  rw [pull_tagMode r1 t2 s1 hp1 hb1]
  exact checkoutLatestTag_noop r1 s1 d t rest ho1 ht heq

/-- C8: in tag-tracking mode, two full synchronization calls (both past
the debounce window) with an unchanged remote tag that is new to the
repository issue exactly one checkout in total: the first call checks the
tag out, the second finds the resolved tag equal to the recorded one and
is an idempotent no-op (same repository state, no checkout), and both
calls succeed. -/
theorem C8_tag_idempotent_one_checkout (r : Repo) (s : ExecState) (t1 t2 : Nat)
    (a t b c d : String) (rest : List CmdResult)
    (hp : r.pulled = true) (hb : r.branch = "{latest}")
    (hs : s.oracle = [CmdResult.ok a, CmdResult.ok t, CmdResult.ok b, CmdResult.ok c,
                      CmdResult.ok d, CmdResult.ok t] ++ rest)
    (ht : (trimSpace t == "") = false)
    (hnew : (trimSpace t == r.latestTag) = false)
    (hd1 : ¬ (t1 - r.lastPull < 5)) (hsep : t1 + 5 < t2) :
    ((Repo.Pull r t1 s).1).2 = none
    ∧ ((Repo.Pull ((Repo.Pull r t1 s).1.1) t2 ((Repo.Pull r t1 s).2)).1).2 = none
    ∧ (Repo.Pull ((Repo.Pull r t1 s).1.1) t2 ((Repo.Pull r t1 s).2)).1.1
        = (Repo.Pull r t1 s).1.1
    ∧ List.countP isCheckout (((Repo.Pull r t1 s).2).trace)
        = List.countP isCheckout s.trace + 1
    ∧ List.countP isCheckout
        (((Repo.Pull ((Repo.Pull r t1 s).1.1) t2 ((Repo.Pull r t1 s).2)).2).trace)
        = List.countP isCheckout s.trace + 1 := by
  have P1 : Repo.Pull r t1 s
      = (({ r with latestTag := trimSpace t, lastCommit := trimSpace c }, none),
         { oracle := [CmdResult.ok d, CmdResult.ok t] ++ rest,
           trace := s.trace ++ [fetchCmd r, describeCmd r,
             checkoutTagCmd r (trimSpace t), logCmd r] }) := by
    refine Pull_first_attempt_ok r t1 s _ _ hd1 ?_
    rw [pull_tagMode r t1 s hp hb]
    exact checkoutLatestTag_new_tag r s a t b c _ hs ht hnew
  have hp1 : ((Repo.Pull r t1 s).1.1).pulled = true := by rw [P1]; exact hp
  have hb1 : ((Repo.Pull r t1 s).1.1).branch = "{latest}" := by rw [P1]; exact hb
  have ho1 : ((Repo.Pull r t1 s).2).oracle
      = CmdResult.ok d :: CmdResult.ok t :: rest := by rw [P1]; rfl
  have heq : (trimSpace t == ((Repo.Pull r t1 s).1.1).latestTag) = true := by
    rw [P1]; simp
  have hd2 : ¬ (t2 - ((Repo.Pull r t1 s).1.1).lastPull < 5) := by
    rw [P1]
    show ¬ (t2 - r.lastPull < 5)
    omega
  have P2 := Pull_tag_noop ((Repo.Pull r t1 s).1.1) t2 ((Repo.Pull r t1 s).2) d t rest
    hp1 hb1 ho1 ht heq hd2
  refine ⟨by rw [P1], by rw [P2], by rw [P2], ?_, ?_⟩
  · rw [P1]
    simp [List.countP_append, List.countP_cons, isCheckout, fetchCmd, describeCmd,
      checkoutTagCmd, logCmd]
  · rw [P2]
    simp only [List.countP_append]
    rw [P1]
    simp [List.countP_append, List.countP_cons, isCheckout, fetchCmd, describeCmd,
      checkoutTagCmd, logCmd]

/-- Witness for C8: after the two-call scenario on a fresh tag-mode
repository exactly one checkout appears in the trace. -/
theorem C8_tag_idempotent_one_checkout_witness :
    List.countP isCheckout
      (((Repo.Pull ((Repo.Pull sampleTagRepo 10 tagScenario).1.1) 16
          ((Repo.Pull sampleTagRepo 10 tagScenario).2)).2).trace)
      = List.countP isCheckout tagScenario.trace + 1 :=
  (C8_tag_idempotent_one_checkout sampleTagRepo tagScenario 10 16 "x" "v1" "y" "h1" "z"
    [] rfl rfl rfl (by decide) (by decide) (by decide) (by decide)).2.2.2.2

/-- Helper: `runCmd` appends exactly its command to the trace, whatever
the process does. -/
theorem runCmd_trace (c : String) (a : List String) (d : String) (s : ExecState) :
    ((runCmd c a d s).2).trace = s.trace ++ [{ command := c, args := a, dir := d }] := by
  cases hs : s.oracle with
  | nil => simp [runCmd, issue, hs]
  | cons x xs => cases x <;> simp [runCmd, issue, hs]

/-- Helper: `runCmdOutput` appends exactly its command to the trace,
whatever the process does. -/
theorem runCmdOutput_trace (c : String) (a : List String) (d : String) (s : ExecState) :
    ((runCmdOutput c a d s).2).trace
      = s.trace ++ [{ command := c, args := a, dir := d }] := by
  cases hs : s.oracle with
  | nil => simp [runCmdOutput, issue, hs]
  | cons x xs => cases x <;> simp [runCmdOutput, issue, hs]

/-- Helper: `mostRecentCommit` appends exactly the log command. -/
theorem mostRecentCommit_trace (r : Repo) (s : ExecState) :
    ((r.mostRecentCommit s).2).trace = s.trace ++ [logCmd r] := by
  simp [Repo.mostRecentCommit, runCmdOutput_trace, logCmd]

/-- Helper: `fetchLatestTag` appends only fetch/describe commands, never
a clone. -/
theorem fetchLatestTag_trace (r : Repo) (s : ExecState) :
    ∃ newCmds, ((r.fetchLatestTag s).2).trace = s.trace ++ newCmds
      ∧ ∀ cmd ∈ newCmds, isClone cmd = false := by
  unfold Repo.fetchLatestTag Repo.gitCmd
  rcases hr : runCmd "git" ["fetch", "origin", "--tags"] r.path s with ⟨e, s1⟩
  have ht1 : s1.trace = s.trace ++ [fetchCmd r] := by
    have h := runCmd_trace "git" ["fetch", "origin", "--tags"] r.path s
    rw [hr] at h
    simpa [fetchCmd] using h
  cases e with
  | some m =>
    exact ⟨[fetchCmd r], ht1, by simp [isClone, fetchCmd]⟩
  | none =>
    refine ⟨[fetchCmd r, describeCmd r], ?_, by simp [isClone, fetchCmd, describeCmd]⟩
    have h2 := runCmdOutput_trace "git" ["describe", "origin", "--abbrev=0", "--tags"]
      r.path s1
    simp only at h2 ⊢
    rw [h2, ht1]
    simp [describeCmd]

/-- Helper: the tag-mode convergence step never issues a clone command,
on any of its paths. -/
theorem checkoutLatestTag_no_clone (r : Repo) (s : ExecState) :
    ∃ newCmds, ((r.checkoutLatestTag s).2).trace = s.trace ++ newCmds
      ∧ ∀ cmd ∈ newCmds, isClone cmd = false := by
  unfold Repo.checkoutLatestTag
  rcases hf : r.fetchLatestTag s with ⟨⟨tag, e⟩, s1⟩
  obtain ⟨n1, hn1, hc1⟩ := fetchLatestTag_trace r s
  rw [hf] at hn1
  cases e with
  | some m => exact ⟨n1, hn1, hc1⟩
  | none =>
    simp only
    split
    · exact ⟨n1, hn1, hc1⟩
    · split
      · exact ⟨n1, hn1, hc1⟩
      · unfold Repo.gitCmd
        rcases hk : runCmd "git" ["checkout", "tags/" ++ tag] r.path s1 with ⟨e2, s2⟩
        have ht2 : s2.trace = s1.trace ++ [checkoutTagCmd r tag] := by
          have h := runCmd_trace "git" ["checkout", "tags/" ++ tag] r.path s1
          rw [hk] at h
          simpa [checkoutTagCmd] using h
        cases e2 with
        | some m2 =>
          refine ⟨n1 ++ [checkoutTagCmd r tag], ?_, ?_⟩
          · rw [ht2, hn1, List.append_assoc]
          · intro cmd hc
            rcases List.mem_append.mp hc with h | h
            · exact hc1 cmd h
            · simp only [List.mem_singleton] at h
              subst h
              simp [isClone, checkoutTagCmd]
        | none =>
          rcases hm : Repo.mostRecentCommit r s2 with ⟨⟨cstr, e3⟩, s3⟩
          have ht3 : s3.trace = s2.trace ++ [logCmd r] := by
            have h := mostRecentCommit_trace r s2
            rw [hm] at h
            exact h
          refine ⟨n1 ++ [checkoutTagCmd r tag, logCmd r], ?_, ?_⟩
          · simp only
            rw [ht3, ht2, hn1]
            simp [List.append_assoc]
          · intro cmd hc
            rcases List.mem_append.mp hc with h | h
            · exact hc1 cmd h
            · rcases List.mem_cons.mp h with h' | h'
              · subst h'
                simp [isClone, checkoutTagCmd]
              · simp only [List.mem_singleton] at h'
                subst h'
                simp [isClone, logCmd]

/-- Helper: an attempt on an already-initialized repository — of either
tracking mode — never issues a clone command. -/
theorem pull_pulled_no_clone (r1 : Repo) (now : Nat) (s' : ExecState)
    (hp : r1.pulled = true) :
    ∃ newCmds, ((r1.pull now s').2).trace = s'.trace ++ newCmds
      ∧ ∀ cmd ∈ newCmds, isClone cmd = false := by
  cases hbt : (r1.branch == latestTag) with
  | true =>
    rw [pull_tagMode r1 now s' hp (by simpa [latestTag] using (beq_iff_eq.mp hbt))]
    exact checkoutLatestTag_no_clone r1 s'
  | false =>
    cases ho : s'.oracle with
    | nil =>
      rw [pull_branch_dry r1 now s' hp hbt ho]
      exact ⟨[pullCmd r1], rfl, by simp [isClone, pullCmd]⟩
    | cons cr crs =>
      cases cr with
      | ok o =>
        rw [pull_branch_ok r1 now s' o crs hp hbt ho]
        refine ⟨[pullCmd r1, logCmd r1], by simp, by simp [isClone, pullCmd, logCmd]⟩
      | fail m =>
        rw [pull_branch_fail r1 now s' m crs hp hbt ho]
        exact ⟨[pullCmd r1], rfl, by simp [isClone, pullCmd]⟩

/-- C6: preparing a path that already holds a working copy whose recorded
remote origin matches the configured remote (trailing ".git" ignored on
both sides) succeeds, performs no mkdir, and marks the repository
initialized — in either tracking mode.  The first subsequent
synchronization attempt therefore never issues a clone command, and in
branch-tracking mode it issues the pull command first. -/
theorem C6_prepare_matching_origin_marks_pulled (r : Repo) (fs : FsEnv) (s : ExecState)
    (entries : List DirEntry) (u : String) (rest : List CmdResult)
    (hrd : fs.readDir = some entries) (hne : entries.isEmpty = false)
    (hgit : entries.any (fun f => f.isDir && f.name == ".git") = true)
    (hstat : fs.statOk = true)
    (ho : s.oracle = CmdResult.ok u :: rest)
    (hmatch : (trimSuffix (trimSpace u) ".git" == trimSuffix r.url ".git") = true) :
    (Repo.Prepare r fs s).1
      = { repo := { r with pulled := true }, err := none, mkdirCalled := false }
    ∧ (∀ now (s' : ExecState), ∃ newCmds,
        ((Repo.pull { r with pulled := true } now s').2).trace = s'.trace ++ newCmds
        ∧ ∀ cmd ∈ newCmds, isClone cmd = false)
    ∧ ((r.branch == latestTag) = false → ∀ now (s' : ExecState), ∃ tail,
        ((Repo.pull { r with pulled := true } now s').2).trace
          = s'.trace ++ (pullCmd r :: tail)) := by
  refine ⟨?_, ?_, ?_⟩
  · simp [Repo.Prepare, hrd, hne, hgit, Repo.originURL, hstat, runCmdOutput, issue, ho,
      hmatch]
  · intro now s'
    exact pull_pulled_no_clone { r with pulled := true } now s' rfl
  · intro hbr now s'
    have hp' : ({ r with pulled := true } : Repo).pulled = true := rfl
    have hbr' : (({ r with pulled := true } : Repo).branch == latestTag) = false := hbr
    cases ho' : s'.oracle with
    | nil =>
      refine ⟨[], ?_⟩
      rw [pull_branch_dry _ now s' hp' hbr' ho']
      simp [pullCmd]
    | cons cr crs =>
      cases cr with
      | ok o =>
        refine ⟨[logCmd r], ?_⟩
        rw [pull_branch_ok _ now s' o crs hp' hbr' ho']
        simp [pullCmd, logCmd]
      | fail m =>
        refine ⟨[], ?_⟩
        rw [pull_branch_fail _ now s' m crs hp' hbr' ho']
        simp [pullCmd]

/-- Witness for C6 on a concrete matching working copy. -/
theorem C6_prepare_matching_origin_marks_pulled_witness :
    (Repo.Prepare sampleRepo sampleFsGit originMatches).1
      = { repo := { sampleRepo with pulled := true }, err := none, mkdirCalled := false } :=
  (C6_prepare_matching_origin_marks_pulled sampleRepo sampleFsGit originMatches
    [{ name := ".git", isDir := true }] "host/org/zones.git" [] rfl rfl (by decide) rfl
    rfl (by decide)).1

/-- C7: preparing a non-empty path that is either a working copy of a
different origin or not a working copy at all fails with a
ConfigurationError, leaves every piece of recorded repository state
unchanged, and performs no mutating filesystem operation (no mkdir; the
check only reads). -/
theorem C7_prepare_conflicting_path_fails_unchanged (r : Repo) (fs : FsEnv)
    (s : ExecState) (entries : List DirEntry)
    (hrd : fs.readDir = some entries) (hne : entries.isEmpty = false)
    (hcase : entries.any (fun f => f.isDir && f.name == ".git") = false
      ∨ (entries.any (fun f => f.isDir && f.name == ".git") = true
          ∧ fs.statOk = true
          ∧ ∃ u rest, s.oracle = CmdResult.ok u :: rest
            ∧ (trimSuffix (trimSpace u) ".git" == trimSuffix r.url ".git") = false)) :
    ((Repo.Prepare r fs s).1).err.isSome = true
    ∧ ((Repo.Prepare r fs s).1).repo = r
    ∧ ((Repo.Prepare r fs s).1).mkdirCalled = false := by
  rcases hcase with hgit | ⟨hgit, hstat, u, rest, ho, hmm⟩
  · refine ⟨?_, ?_, ?_⟩ <;>
      simp [Repo.Prepare, hrd, hne, hgit]
  · refine ⟨?_, ?_, ?_⟩ <;>
      simp [Repo.Prepare, hrd, hne, hgit, Repo.originURL, hstat, runCmdOutput, issue, ho,
        hmm]

/-- Witness for C7 on a concrete non-repository directory. -/
theorem C7_prepare_conflicting_path_fails_unchanged_witness :
    ((Repo.Prepare sampleRepo sampleFsNonRepo originDiffers).1).err.isSome = true
    ∧ ((Repo.Prepare sampleRepo sampleFsNonRepo originDiffers).1).repo = sampleRepo
    ∧ ((Repo.Prepare sampleRepo sampleFsNonRepo originDiffers).1).mkdirCalled = false :=
  C7_prepare_conflicting_path_fails_unchanged sampleRepo sampleFsNonRepo originDiffers
    [{ name := "zones.txt", isDir := false }] rfl rfl (Or.inl (by decide))

end CoreDNSGit
